import Mathlib

/-!
Verification of the authenticated API client in
`src/frontend/src/lib/api.ts` (class `ApiService`).

The client is embedded shallowly: the external collaborators (the Firebase
identity provider and the `fetch` transport) are inputs to the functions,
and each operation call is modelled as a pure function from those inputs to
the outgoing HTTP request together with the call's result
(`Except RequestError (ApiResponse α)`).
-/

/-- Model of the external identity provider's user object: the outcome of
calling `user.getIdToken()` — either a token string or a thrown error.
The provider is an external collaborator of the repository (imported from
`./firebase`); only the two operations the client uses are modelled. -/
structure FirebaseUser where
  getIdToken : Except String String

/-- Model of the identity provider (`auth` from `./firebase`): its
`currentUser` field, `null` when nobody is signed in. -/
structure FirebaseAuth where
  currentUser : Option FirebaseUser

/-- `ApiService.getAuthToken` (api.ts lines 63-74): returns `null` when
there is no current user, the token when `getIdToken()` resolves, and —
because the whole body is wrapped in try/catch — `null` again when
`getIdToken()` throws. -/
def getAuthToken (auth : FirebaseAuth) : Option String :=
  match auth.currentUser with
  | none => none
  | some user =>
    match user.getIdToken with
    | Except.ok token => some token
    | Except.error _ => none

/-- The response envelope `ApiResponse<T>` (api.ts lines 47-53).
`data` is the optional typed payload; `message` is mandatory in the
TypeScript interface, and an envelope whose JSON had no `message` field is
represented by the empty string (both are falsy under `data.message ||`). -/
structure ApiResponse (α : Type) where
  success : Bool
  message : String
  data : Option α
  error : Option String
  timestamp : String
deriving DecidableEq

/-- The `RequestInit` options each public method passes to `makeRequest`:
optional HTTP method (fetch defaults to GET), optional body, extra headers
(always empty in this codebase — no public method passes headers). -/
structure RequestOptions where
  method : Option String := none
  body : Option String := none
  headers : List (String × String) := []
deriving DecidableEq

/-- The outgoing HTTP request handed to `fetch` (api.ts lines 97-100). -/
structure HttpRequest where
  url : String
  method : Option String
  headers : List (String × String)
  body : Option String
deriving DecidableEq

/-- JavaScript object-key update semantics on a header map represented as
an association list: overwrite in place when the key exists, append
otherwise. -/
def setHeader (hs : List (String × String)) (k v : String) : List (String × String) :=
  if hs.any (fun p => p.1 = k) then
    hs.map (fun p => if p.1 = k then (k, v) else p)
  else
    hs ++ [(k, v)]

/-- Object-spread merge `\x7b ...base, ...extra \x7d`: every key of `extra`
overwrites or extends `base`, in order. -/
def mergeHeaders (base extra : List (String × String)) : List (String × String) :=
  extra.foldl (fun acc p => setHeader acc p.1 p.2) base

/-- Header lookup: the value at the first occurrence of the key. -/
def getHeader (hs : List (String × String)) (k : String) : Option String :=
  (hs.find? (fun p => p.1 = k)).map (fun p => p.2)

/-- Header composition in `makeRequest` (api.ts lines 86-94):
`Content-Type: application/json` first, spread of `options.headers`, then
`Authorization: Bearer <token>` added only when `token` is truthy — a JS
`string | null` is truthy exactly when it is a non-empty string. -/
def buildHeaders (options : RequestOptions) (token : Option String) : List (String × String) :=
  let hs := mergeHeaders [("Content-Type", "application/json")] options.headers
  match token with
  | none => hs
  | some t => if t = "" then hs else setHeader hs "Authorization" ("Bearer " ++ t)

/-- The request `makeRequest` issues: URL is base URL concatenated with the
endpoint (api.ts line 81), method and body from the options, headers as
composed above. -/
def buildRequest (baseURL endpoint : String) (options : RequestOptions)
    (token : Option String) : HttpRequest :=
  { url := baseURL ++ endpoint
    method := options.method
    headers := buildHeaders options token
    body := options.body }

/-- The ways a call can reject (api.ts lines 96-112): `fetch` itself
rejects (network failure), `response.json()` rejects (unparseable body), or
the client throws `new Error(...)` on a non-ok status. Each constructor
carries the thrown error's message. -/
inductive RequestError where
  | fetchFailed (msg : String)
  | jsonFailed (msg : String)
  | httpError (msg : String)
deriving DecidableEq

/-- The message of the error a rejected call surfaces. -/
def errMessage : RequestError → String
  | RequestError.fetchFailed m => m
  | RequestError.jsonFailed m => m
  | RequestError.httpError m => m

/-- `Response.ok` of the fetch API: status in the 2xx success range. -/
def responseOk (status : Nat) : Bool :=
  200 ≤ status && status < 300

/-- Model of one fetch round trip, as the client observes it: either the
transport rejects, or a response arrives with a status and a body whose
`response.json()` call either rejects or yields a parsed envelope. -/
inductive FetchOutcome (α : Type) where
  | fail (msg : String)
  | resp (status : Nat) (json : Except String (ApiResponse α))

/-- The result path of `makeRequest` (api.ts lines 96-112): await the
fetch, then `response.json()` — so an unparseable body rejects regardless
of status — then, when the status is not ok, throw an error whose message
is `data.message` when truthy, else the fallback built from the status
code; otherwise return the parsed envelope verbatim. The catch block only
logs and rethrows, so every error propagates unchanged. -/
def requestResult {α : Type} (outcome : FetchOutcome α) :
    Except RequestError (ApiResponse α) :=
  match outcome with
  | FetchOutcome.fail e => Except.error (RequestError.fetchFailed e)
  | FetchOutcome.resp status json =>
    match json with
    | Except.error e => Except.error (RequestError.jsonFailed e)
    | Except.ok data =>
      if responseOk status then
        Except.ok data
      else
        Except.error (RequestError.httpError
          (if data.message = "" then "HTTP error! status: " ++ toString status
           else data.message))

/-- `ApiService.makeRequest` (api.ts lines 77-113) as a pure function of
its environment: acquires the token best-effort, composes the single
outgoing request, and maps the fetch outcome to the call's result. -/
def makeRequest {α : Type} (baseURL endpoint : String) (options : RequestOptions)
    (auth : FirebaseAuth) (outcome : FetchOutcome α) :
    HttpRequest × Except RequestError (ApiResponse α) :=
  let token := getAuthToken auth
  (buildRequest baseURL endpoint options token, requestResult outcome)

/-- JSON escaping of one character (the fragment of `JSON.stringify` the
client's payloads can exercise): quote and backslash. -/
def escapeChar (c : Char) : List Char :=
  if c = '"' then ['\\', '"'] else if c = '\\' then ['\\', '\\'] else [c]

/-- JSON string-literal escaping, character by character. -/
def jsonEscape (s : String) : String :=
  String.mk (s.data.foldr (fun c acc => escapeChar c ++ acc) [])

/-- A JSON string literal. -/
def jstr (s : String) : String :=
  "\"" ++ jsonEscape s ++ "\""

/-- One `"key":"value"` member of a JSON object. -/
def jfield (k v : String) : String :=
  jstr k ++ ":" ++ jstr v

/-- Comma-separated concatenation of JSON object members. -/
def joinComma : List String → String
  | [] => ""
  | [s] => s
  | s :: rest₂ :: rest => s ++ "," ++ joinComma (rest₂ :: rest)

/-- The argument of `signUp` (api.ts lines 123-127). -/
structure SignUpData where
  email : String
  password : String
  displayName : Option String
deriving DecidableEq

/-- `JSON.stringify` of the `signUp` payload: `undefined` optional fields
are omitted, keys in the object's insertion order. -/
def stringifySignUpData (d : SignUpData) : String :=
  "\x7b" ++ jfield "email" d.email ++ "," ++ jfield "password" d.password ++
    (match d.displayName with
     | some n => "," ++ jfield "displayName" n
     | none => "") ++ "\x7d"

/-- `SocialProfileData` (api.ts lines 32-38): all fields required. -/
structure SocialProfileData where
  uid : String
  email : String
  displayName : String
  photoURL : String
  provider : String
deriving DecidableEq

/-- `JSON.stringify` of a `SocialProfileData` value. -/
def stringifySocialProfileData (d : SocialProfileData) : String :=
  "\x7b" ++ jfield "uid" d.uid ++ "," ++ jfield "email" d.email ++ "," ++
    jfield "displayName" d.displayName ++ "," ++ jfield "photoURL" d.photoURL ++
    "," ++ jfield "provider" d.provider ++ "\x7d"

/-- `UpdateProfileData` (api.ts lines 40-45): four optional fields. -/
structure UpdateProfileData where
  displayName : Option String := none
  phoneNumber : Option String := none
  firstName : Option String := none
  lastName : Option String := none
deriving DecidableEq

/-- `JSON.stringify` of an `UpdateProfileData` value: present fields only,
in the interface's declaration order. -/
def stringifyUpdateProfileData (d : UpdateProfileData) : String :=
  let fields := [("displayName", d.displayName), ("phoneNumber", d.phoneNumber),
                 ("firstName", d.firstName), ("lastName", d.lastName)]
  "\x7b" ++
    joinComma (fields.filterMap (fun p => p.2.map (fun v => jfield p.1 v))) ++
    "\x7d"

/-- The nine public operations of `ApiService` (api.ts lines 115-176),
each carrying its endpoint-specific payload. -/
inductive Operation where
  | healthCheck
  | signUp (data : SignUpData)
  | createSocialUserProfile (data : SocialProfileData)
  | verifyToken
  | resetPassword (email : String)
  | getProfile
  | updateProfile (data : UpdateProfileData)
  | refreshToken
  | deleteAccount
deriving DecidableEq

/-- The fixed endpoint path each public method passes to `makeRequest`. -/
def Operation.endpoint : Operation → String
  | Operation.healthCheck => "/health"
  | Operation.signUp _ => "/api/auth/signup"
  | Operation.createSocialUserProfile _ => "/api/auth/create-social-profile"
  | Operation.verifyToken => "/api/auth/verify-token"
  | Operation.resetPassword _ => "/api/auth/reset-password"
  | Operation.getProfile => "/api/auth/profile"
  | Operation.updateProfile _ => "/api/auth/profile"
  | Operation.refreshToken => "/api/auth/refresh-token"
  | Operation.deleteAccount => "/api/auth/account"

/-- The `RequestInit` options each public method passes to `makeRequest`:
method and `JSON.stringify`-serialized body exactly as written in
api.ts lines 115-176; no method ever passes extra headers. -/
def Operation.options : Operation → RequestOptions
  | Operation.healthCheck => {}
  | Operation.signUp d =>
      { method := some "POST", body := some (stringifySignUpData d) }
  | Operation.createSocialUserProfile d =>
      { method := some "POST", body := some (stringifySocialProfileData d) }
  | Operation.verifyToken => { method := some "POST" }
  | Operation.resetPassword email =>
      { method := some "POST", body := some ("\x7b" ++ jfield "email" email ++ "\x7d") }
  | Operation.getProfile => {}
  | Operation.updateProfile d =>
      { method := some "PATCH", body := some (stringifyUpdateProfileData d) }
  | Operation.refreshToken => { method := some "POST" }
  | Operation.deleteAccount => { method := some "DELETE" }

/-- `API_BASE_URL` (api.ts line 4): the environment-supplied base URL when
it is truthy (set and non-empty), else the local development endpoint. -/
def API_BASE_URL (envVar : Option String) : String :=
  match envVar with
  | some s => if s = "" then "http://localhost:8000" else s
  | none => "http://localhost:8000"

/-- The `ApiService` class: its only state is the base URL (api.ts
lines 55-60). -/
structure ApiService where
  baseURL : String
deriving DecidableEq

/-- The module-level `apiService` instance (api.ts line 180), constructed
with the default `API_BASE_URL` argument for a given environment. -/
def defaultApiService (envVar : Option String) : ApiService :=
  { baseURL := API_BASE_URL envVar }

/-- One call of a public operation: each public method is a single
`makeRequest` with the operation's endpoint and options, so each call
issues exactly one request. Returns that request and the call's result. -/
def ApiService.call {α : Type} (svc : ApiService) (op : Operation)
    (auth : FirebaseAuth) (outcome : FetchOutcome α) :
    HttpRequest × Except RequestError (ApiResponse α) :=
  makeRequest svc.baseURL op.endpoint op.options auth outcome

/-- Whether the first list occurs as a contiguous run in the second. -/
def containsRun (needle : List Char) : List Char → Bool
  | [] => needle.isPrefixOf []
  | c :: rest => needle.isPrefixOf (c :: rest) || containsRun needle rest

/-- Whether one string occurs as a contiguous substring of another. -/
def strContains (needle haystack : String) : Bool :=
  containsRun needle.toList haystack.toList

/-! ## Helper lemmas -/

theorem op_headers_nil (op : Operation) : (Operation.options op).headers = [] := by
  cases op <;> rfl

theorem getHeader_buildHeaders_ct (opts : RequestOptions) (tok : Option String)
    (h : opts.headers = []) :
    getHeader (buildHeaders opts tok) "Content-Type" = some "application/json" := by
  cases tok with
  | none => simp [buildHeaders, mergeHeaders, h, getHeader]
  | some t =>
    by_cases ht : t = "" <;>
      simp [buildHeaders, mergeHeaders, h, setHeader, getHeader, ht]

theorem getHeader_buildHeaders_auth_none (opts : RequestOptions)
    (h : opts.headers = []) :
    getHeader (buildHeaders opts none) "Authorization" = none := by
  simp [buildHeaders, mergeHeaders, h, getHeader]

theorem getHeader_buildHeaders_auth_empty (opts : RequestOptions)
    (h : opts.headers = []) :
    getHeader (buildHeaders opts (some "")) "Authorization" = none := by
  simp [buildHeaders, mergeHeaders, h, getHeader]

theorem getHeader_buildHeaders_auth_some (opts : RequestOptions) (t : String)
    (h : opts.headers = []) (ht : t ≠ "") :
    getHeader (buildHeaders opts (some t)) "Authorization" = some ("Bearer " ++ t) := by
  simp [buildHeaders, mergeHeaders, h, setHeader, getHeader, ht]

/-! ## Claim theorems -/

/-- C1: for every operation, when the HTTP status is not in the success
range and the body parses to an envelope with a (truthy) message, the call
rejects with an error whose message equals the envelope's message. -/
theorem nonOk_parsed_rejects_with_envelope_message {α : Type}
    (svc : ApiService) (op : Operation) (auth : FirebaseAuth)
    (status : Nat) (env : ApiResponse α)
    (hstatus : responseOk status = false) (hmsg : env.message ≠ "") :
    (svc.call op auth (FetchOutcome.resp status (Except.ok env))).2 =
      Except.error (RequestError.httpError env.message) := by
  simp [ApiService.call, makeRequest, requestResult, hstatus, hmsg]

/-- Witness for C1: a mocked 401 response whose envelope carries
message "invalid token" rejects with exactly that message. -/
theorem nonOk_parsed_rejects_with_envelope_message_witness :
    responseOk 401 = false ∧ ("invalid token" : String) ≠ "" ∧
    ((defaultApiService none).call Operation.getProfile ⟨none⟩
        (FetchOutcome.resp 401
          (Except.ok ⟨false, "invalid token", (none : Option String), none, "ts"⟩))).2 =
      Except.error (RequestError.httpError "invalid token") :=
  ⟨by decide, by decide,
   nonOk_parsed_rejects_with_envelope_message (defaultApiService none)
     Operation.getProfile ⟨none⟩ 401
     ⟨false, "invalid token", (none : Option String), none, "ts"⟩
     (by decide) (by decide)⟩

/-- C2 counterexample: a mocked 500 response whose body is not parseable
rejects with the body-parse error, whose message is not a fallback
constructed from the status code — it does not contain "500". -/
theorem nonOk_unparseable_counterexample :
    ((defaultApiService none).call (α := String) Operation.getProfile ⟨none⟩
        (FetchOutcome.resp 500 (Except.error "Unexpected end of JSON input"))).2 =
      Except.error (RequestError.jsonFailed "Unexpected end of JSON input") ∧
    strContains "500"
      (errMessage (RequestError.jsonFailed "Unexpected end of JSON input")) = false := by
  exact ⟨rfl, by decide⟩

/-- C2 amended: when the HTTP status is not in the success range and the
body is not parseable as JSON, the call rejects — but with the body-parse
error (body parsing precedes the status check), not with a fallback message
constructed from the status code. -/
theorem nonOk_unparseable_rejects_with_parse_error {α : Type}
    (svc : ApiService) (op : Operation) (auth : FirebaseAuth)
    (status : Nat) (e : String) (_hstatus : responseOk status = false) :
    (svc.call (α := α) op auth (FetchOutcome.resp status (Except.error e))).2 =
      Except.error (RequestError.jsonFailed e) := by
  simp [ApiService.call, makeRequest, requestResult]

/-- Witness for the amended C2, at a concrete 500 response. -/
theorem nonOk_unparseable_rejects_with_parse_error_witness :
    responseOk 500 = false ∧
    ((defaultApiService none).call (α := String) Operation.getProfile ⟨none⟩
        (FetchOutcome.resp 500 (Except.error "Unexpected end of JSON input"))).2 =
      Except.error (RequestError.jsonFailed "Unexpected end of JSON input") :=
  ⟨by decide,
   nonOk_unparseable_rejects_with_parse_error (defaultApiService none)
     Operation.getProfile ⟨none⟩ 500 "Unexpected end of JSON input" (by decide)⟩

/-- C3: for every operation, when the identity provider has no current user
or fetching the token throws, the failure is swallowed: the request is
still issued to the operation's URL and carries no Authorization header. -/
theorem token_failure_swallowed_no_auth_header {α : Type}
    (svc : ApiService) (op : Operation) (auth : FirebaseAuth)
    (outcome : FetchOutcome α)
    (h : auth.currentUser = none ∨
      ∃ u e, auth.currentUser = some u ∧ u.getIdToken = Except.error e) :
    getHeader ((svc.call op auth outcome).1).headers "Authorization" = none ∧
    ((svc.call op auth outcome).1).url = svc.baseURL ++ op.endpoint := by
  have htok : getAuthToken auth = none := by
    rcases h with h | ⟨u, e, hu, he⟩
    · simp [getAuthToken, h]
    · simp [getAuthToken, hu, he]
  constructor
  · show getHeader (buildHeaders op.options (getAuthToken auth)) "Authorization" = none
    rw [htok]
    exact getHeader_buildHeaders_auth_none op.options (op_headers_nil op)
  · rfl

/-- Witness for C3: with no signed-in user, a health check still goes out,
to the default base URL, with no Authorization header. -/
theorem token_failure_swallowed_no_auth_header_witness :
    ((⟨none⟩ : FirebaseAuth).currentUser = none ∨
      ∃ u e, (⟨none⟩ : FirebaseAuth).currentUser = some u ∧
        u.getIdToken = Except.error e) ∧
    getHeader (((defaultApiService none).call (α := String) Operation.healthCheck
        ⟨none⟩ (FetchOutcome.fail "network down")).1).headers "Authorization" = none ∧
    (((defaultApiService none).call (α := String) Operation.healthCheck
        ⟨none⟩ (FetchOutcome.fail "network down")).1).url =
      (defaultApiService none).baseURL ++ Operation.healthCheck.endpoint :=
  ⟨Or.inl rfl,
   token_failure_swallowed_no_auth_header (defaultApiService none)
     Operation.healthCheck ⟨none⟩ (FetchOutcome.fail "network down") (Or.inl rfl)⟩

/-- C4 counterexample: when the provider returns the empty string, a token
string was obtained, yet the request carries no Authorization header at
all — in particular the header is not "Bearer " followed by the token. -/
theorem obtained_token_bearer_header_counterexample :
    getAuthToken ⟨some ⟨Except.ok ""⟩⟩ = some "" ∧
    getHeader (((defaultApiService none).call (α := String) Operation.getProfile
        ⟨some ⟨Except.ok ""⟩⟩ (FetchOutcome.fail "x")).1).headers "Authorization" = none ∧
    getHeader (((defaultApiService none).call (α := String) Operation.getProfile
        ⟨some ⟨Except.ok ""⟩⟩ (FetchOutcome.fail "x")).1).headers "Authorization" ≠
      some ("Bearer " ++ "") := by
  refine ⟨rfl, rfl, ?_⟩
  intro h
  have h2 : (none : Option String) = some ("Bearer " ++ "") := h
  exact Option.noConfusion h2

/-- C4 amended: whenever a non-empty token string was obtained from the
identity provider, the outgoing request's Authorization header equals
exactly "Bearer " concatenated with that token. -/
theorem obtained_nonempty_token_bearer_header {α : Type}
    (svc : ApiService) (op : Operation) (outcome : FetchOutcome α)
    (u : FirebaseUser) (t : String)
    (hu : u.getIdToken = Except.ok t) (ht : t ≠ "") :
    getHeader ((svc.call op ⟨some u⟩ outcome).1).headers "Authorization" =
      some ("Bearer " ++ t) := by
  show getHeader (buildHeaders op.options (getAuthToken ⟨some u⟩)) "Authorization" = _
  have htok : getAuthToken ⟨some u⟩ = some t := by simp [getAuthToken, hu]
  rw [htok]
  exact getHeader_buildHeaders_auth_some op.options t (op_headers_nil op) ht

/-- Witness for the amended C4, with the concrete token "tok123". -/
theorem obtained_nonempty_token_bearer_header_witness :
    (FirebaseUser.mk (Except.ok "tok123")).getIdToken = Except.ok "tok123" ∧
    ("tok123" : String) ≠ "" ∧
    getHeader (((defaultApiService none).call (α := String) Operation.getProfile
        ⟨some ⟨Except.ok "tok123"⟩⟩ (FetchOutcome.fail "x")).1).headers "Authorization" =
      some ("Bearer " ++ "tok123") :=
  ⟨rfl, by decide,
   obtained_nonempty_token_bearer_header (defaultApiService none)
     Operation.getProfile (FetchOutcome.fail "x") ⟨Except.ok "tok123"⟩ "tok123"
     rfl (by decide)⟩

/-- C5: for every operation, when the HTTP status is in the success range
and the body parses, the call resolves with exactly the parsed envelope,
unmodified. -/
theorem ok_parsed_resolves_verbatim {α : Type}
    (svc : ApiService) (op : Operation) (auth : FirebaseAuth)
    (status : Nat) (env : ApiResponse α) (hstatus : responseOk status = true) :
    (svc.call op auth (FetchOutcome.resp status (Except.ok env))).2 =
      Except.ok env := by
  simp [ApiService.call, makeRequest, requestResult, hstatus]

/-- Witness for C5: a mocked 200 response with a success envelope carrying
a payload resolves with that exact envelope. -/
theorem ok_parsed_resolves_verbatim_witness :
    responseOk 200 = true ∧
    ((defaultApiService none).call Operation.getProfile ⟨none⟩
        (FetchOutcome.resp 200
          (Except.ok ⟨true, "ok", some "payload", none, "ts"⟩))).2 =
      Except.ok (⟨true, "ok", some "payload", none, "ts"⟩ : ApiResponse String) :=
  ⟨by decide,
   ok_parsed_resolves_verbatim (defaultApiService none) Operation.getProfile ⟨none⟩
     200 ⟨true, "ok", some "payload", none, "ts"⟩ (by decide)⟩

/-- C6: for every operation invoked through the client's public methods,
the outgoing request's headers include Content-Type: application/json,
whatever the identity provider, method, body and transport outcome. -/
theorem headers_always_content_type_json {α : Type}
    (svc : ApiService) (op : Operation) (auth : FirebaseAuth)
    (outcome : FetchOutcome α) :
    getHeader ((svc.call op auth outcome).1).headers "Content-Type" =
      some "application/json" := by
  show getHeader (buildHeaders op.options (getAuthToken auth)) "Content-Type" = _
  exact getHeader_buildHeaders_ct op.options (getAuthToken auth) (op_headers_nil op)

/-- C7: updateProfile with the single field firstName = "A" issues its one
request with method PATCH to /api/auth/profile, with body exactly the JSON
object holding only that field. -/
theorem updateProfile_firstName_request {α : Type}
    (svc : ApiService) (auth : FirebaseAuth) (outcome : FetchOutcome α) :
    ((svc.call (Operation.updateProfile { firstName := some "A" }) auth outcome).1).method =
        some "PATCH" ∧
    ((svc.call (Operation.updateProfile { firstName := some "A" }) auth outcome).1).url =
        svc.baseURL ++ "/api/auth/profile" ∧
    ((svc.call (Operation.updateProfile { firstName := some "A" }) auth outcome).1).body =
        some "\x7b\"firstName\":\"A\"\x7d" :=
  ⟨rfl, rfl, rfl⟩

/-- C8: with the environment base URL absent, the client's base URL is
http://localhost:8000, and every request URL is that base URL concatenated
with the operation's fixed endpoint path. -/
theorem default_base_url_and_request_url {α : Type}
    (op : Operation) (auth : FirebaseAuth) (outcome : FetchOutcome α) :
    API_BASE_URL none = "http://localhost:8000" ∧
    ((defaultApiService none).call op auth outcome).1.url =
      "http://localhost:8000" ++ op.endpoint :=
  ⟨rfl, rfl⟩

/-- C9: for every operation, when the identity provider returns the empty
string as the token, the token is obtained but — the presence check being
truthiness — the outgoing request carries no Authorization header. -/
theorem empty_token_no_auth_header {α : Type}
    (svc : ApiService) (op : Operation) (outcome : FetchOutcome α) :
    getAuthToken ⟨some ⟨Except.ok ""⟩⟩ = some "" ∧
    getHeader ((svc.call op ⟨some ⟨Except.ok ""⟩⟩ outcome).1).headers
      "Authorization" = none := by
  refine ⟨rfl, ?_⟩
  show getHeader (buildHeaders op.options (getAuthToken ⟨some ⟨Except.ok ""⟩⟩))
    "Authorization" = none
  exact getHeader_buildHeaders_auth_empty op.options (op_headers_nil op)

/-- C10: for every operation, when the body is not parseable as JSON, the
call rejects even when the HTTP status is in the success range — body
parsing happens before the status check. -/
theorem ok_status_unparseable_still_rejects {α : Type}
    (svc : ApiService) (op : Operation) (auth : FirebaseAuth)
    (status : Nat) (e : String) (_hstatus : responseOk status = true) :
    (svc.call (α := α) op auth (FetchOutcome.resp status (Except.error e))).2 =
      Except.error (RequestError.jsonFailed e) := by
  simp [ApiService.call, makeRequest, requestResult]

/-- Witness for C10: a 200 response with an unparseable body rejects with
the parse error. -/
theorem ok_status_unparseable_still_rejects_witness :
    responseOk 200 = true ∧
    ((defaultApiService none).call (α := String) Operation.healthCheck ⟨none⟩
        (FetchOutcome.resp 200 (Except.error "Unexpected token < in JSON"))).2 =
      Except.error (RequestError.jsonFailed "Unexpected token < in JSON") :=
  ⟨by decide,
   ok_status_unparseable_still_rejects (defaultApiService none)
     Operation.healthCheck ⟨none⟩ 200 "Unexpected token < in JSON" (by decide)⟩
